import Mathlib

/-!
Verification of the credential extraction and propagation mechanism of the
NASA APOD MCP server (`src/server.py`).

The embedding models:
- the starlette-style case-insensitive header mapping (`request.headers.get`);
- `AuthMiddleware.on_request` (lines 47-83): bearer-token extraction with the
  `X-API-KEY` fallback, storage into `context.state.api_key` or
  `request.state.api_key`, exception swallowing, unconditional `call_next`;
- `get_session_api_key` (lines 103-130): the ordered fallback chain over the
  context state, the ambient HTTP request, and the ambient context accessor,
  with each step's failures swallowed;
- the tools `example_tool` (lines 144-172) and `get_api_info` (lines 175-196).

Python exceptions are modelled with `Except Unit`; `try/except: pass` blocks
become `pyCatch`. Python attribute presence (`hasattr`) becomes `Option` /
`Bool` fields. Python string truthiness (`if token:`) is an explicit
comparison with the empty string.
-/

deriving instance DecidableEq for Except

/-- ASCII lower-casing of one character, as Python's `str.lower` acts on the
ASCII header values relevant here. -/
def lowerChar (c : Char) : Char :=
  if c.toNat ≥ 65 ∧ c.toNat ≤ 90 then Char.ofNat (c.toNat + 32) else c

/-- Python's `s.lower()` (ASCII fragment). -/
def pyLower (s : String) : String := String.mk (s.data.map lowerChar)

/-- Python's `s.startswith(p)`. -/
def pyStartsWith (s p : String) : Bool := p.data.isPrefixOf s.data

/-- Python's slice `s[n:]` (by characters). -/
def pyDrop (s : String) (n : Nat) : String := String.mk (s.data.drop n)

/-- Python's `str.isspace` characters (ASCII fragment). -/
def isSpaceChar (c : Char) : Bool :=
  c == ' ' || c == '\t' || c == '\n' || c == '\r' || c == '\x0b' || c == '\x0c'

/-- Python's `s.strip()`: remove leading and trailing whitespace. -/
def pyStrip (s : String) : String :=
  String.mk (((s.data.dropWhile isSpaceChar).reverse.dropWhile isSpaceChar).reverse)

/-- A case-insensitive header lookup, as starlette's `request.headers.get(k)`:
headers are an association list, the first entry whose name matches the key
up to ASCII case wins. -/
def headerGet (hs : List (String × String)) (k : String) : Option String :=
  (hs.find? (fun p => pyLower p.1 == pyLower k)).map (fun p => p.2)

/-- `request.headers.get(k, d)`: lookup with a default. -/
def headerGetD (hs : List (String × String)) (k d : String) : String :=
  (headerGet hs k).getD d

/-- `request.state` as visible to this code: whether the attribute `api_key`
is set, and its value (`hasattr(request.state, 'api_key')`). -/
structure ReqState where
  apiKey : Option String
  deriving DecidableEq, Repr

/-- The transport request: a header mapping and a mutable per-request state. -/
structure HttpRequest where
  headers : List (String × String)
  state : ReqState
  deriving DecidableEq, Repr

/-- The ambient context returned by `get_context()`: whether it has a `state`
attribute, and whether that state has an `api_key` attribute (with value). -/
structure AmbientCtx where
  hasState : Bool
  apiKey : Option String
  deriving DecidableEq, Repr

/-- `try: ... except Exception: handler` over the `Except Unit` model. -/
def pyCatch {α : Type} (x : Except Unit α) (h : Unit → Except Unit α) :
    Except Unit α :=
  match x with
  | .ok a => .ok a
  | .error e => h e

/-- Line 59 of `server.py`:
`token = auth[7:].strip() if auth.lower().startswith("bearer ") else None`
applied to `auth = request.headers.get("Authorization", "")`. -/
def bearerToken (hs : List (String × String)) : Option String :=
  let auth := headerGetD hs "Authorization" ""
  if pyStartsWith (pyLower auth) "bearer " then some (pyStrip (pyDrop auth 7))
  else none

/-- Lines 58-63 of `server.py`: the value of `token` after the bearer
extraction and the `X-API-KEY` fallback (`if not token:` is Python string
truthiness, so both `None` and `""` fall back). The result is a `String`,
possibly empty, exactly as in the Python code after line 63. -/
def finalToken (hs : List (String × String)) : String :=
  match bearerToken hs with
  | some t => if t = "" then headerGetD hs "X-API-KEY" "" else t
  | none => headerGetD hs "X-API-KEY" ""

/-- The environment of one `AuthMiddleware.on_request` run:
`get_http_request()` may raise (non-HTTP transport), the middleware context
may or may not have a `state` attribute, and that state may already hold an
`api_key` attribute. -/
structure MwEnv where
  httpRequest : Except Unit HttpRequest
  contextHasState : Bool
  contextApiKey : Option String
  deriving Repr

/-- The observable outcome of `AuthMiddleware.on_request`: the context
state's `api_key` attribute afterwards, the request state's `api_key`
attribute afterwards (`none` also when no request was obtainable), and
whether `await call_next(context)` ran. -/
structure MwOutcome where
  contextApiKey : Option String
  requestApiKey : Option String
  proceeded : Bool
  deriving DecidableEq, Repr

/-- The `try:` block of `AuthMiddleware.on_request` (lines 49-76): obtain the
request, extract the token, and store it. Produces the post-run values of the
two stores; raises iff `get_http_request()` raises. -/
def onRequestTry (env : MwEnv) : Except Unit (Option String × Option String) :=
  match env.httpRequest with
  | .error e => .error e
  | .ok req =>
    let token := finalToken req.headers
    if token = "" then
      .ok (env.contextApiKey, req.state.apiKey)
    else if env.contextHasState then
      .ok (some token, req.state.apiKey)
    else
      .ok (env.contextApiKey, some token)

/-- `AuthMiddleware.on_request` (lines 47-83): the `try:` block with its
`except Exception` swallowing everything (stores left as they were), followed
unconditionally by `call_next(context)`. -/
def on_request (env : MwEnv) : MwOutcome :=
  match pyCatch (onRequestTry env) (fun _ => .ok (env.contextApiKey, none)) with
  | .ok (c, r) => { contextApiKey := c, requestApiKey := r, proceeded := true }
  | .error _ => { contextApiKey := env.contextApiKey, requestApiKey := none,
                  proceeded := false }

/-- The environment of one `get_session_api_key` call: the tool's `context`
argument (with its `state` shape) plus the two ambient accessors
`get_http_request()` and `get_context()`, each of which may raise. -/
structure ResolverEnv where
  contextHasState : Bool
  contextApiKey : Option String
  httpRequest : Except Unit HttpRequest
  ambientContext : Except Unit AmbientCtx
  deriving Repr

/-- Lines 108-109: `if hasattr(context, 'state') and
hasattr(context.state, 'api_key'): return context.state.api_key`. -/
def resolverStep1 (env : ResolverEnv) : Option String :=
  if env.contextHasState then env.contextApiKey else none

/-- Lines 112-117: the `try:` around `get_http_request()` and the read of
`request.state.api_key`; an exception is swallowed (`pass`), an absent
attribute falls through. -/
def resolverStep2 (env : ResolverEnv) : Option String :=
  match pyCatch (env.httpRequest.map (fun req => req.state.apiKey))
      (fun _ => .ok none) with
  | .ok v => v
  | .error _ => none

/-- Lines 120-125: the `try:` around `get_context()` and the re-check of the
context shape; an exception is swallowed (`pass`). -/
def resolverStep3 (env : ResolverEnv) : Option String :=
  match pyCatch (env.ambientContext.map
      (fun ctx => if ctx.hasState then ctx.apiKey else none))
      (fun _ => .ok none) with
  | .ok v => v
  | .error _ => none

/-- `get_session_api_key` (lines 103-130): the ordered fallback chain, with
the outer `except Exception` falling through to `return None`. The result is
`.ok` of the credential or `.ok none`; `.error` would model an escaped
exception. -/
def get_session_api_key (env : ResolverEnv) : Except Unit (Option String) :=
  pyCatch
    (match resolverStep1 env with
     | some v => .ok (some v)
     | none =>
       match resolverStep2 env with
       | some v => .ok (some v)
       | none =>
         match resolverStep3 env with
         | some v => .ok (some v)
         | none => .ok none)
    (fun _ => .ok none)

/-- The exact missing-credential message of `example_tool` (line 164). -/
def missingKeyMsg : String :=
  "No API key found. Please authenticate with Authorization: Bearer YOUR_API_KEY"

/-- `example_tool` (lines 144-172): resolves the key, returns the
error-shaped dictionary when the key is falsy (`if not api_key:`), else the
placeholder success dictionary. `now` stands for `datetime.now().isoformat()`.
Dictionaries are association lists. -/
def example_tool (env : ResolverEnv) (query now : String) :
    Except Unit (List (String × String)) :=
  (get_session_api_key env).bind (fun apiKey =>
    match apiKey with
    | none => .ok [("error", missingKeyMsg)]
    | some k =>
      if k = "" then .ok [("error", missingKeyMsg)]
      else .ok [("status", "success"),
                ("message",
                 "This is a placeholder. Implement your NASA Astronomy Picture of the Day logic here."),
                ("query", query),
                ("timestamp", now)])

/-- `get_api_info` (lines 175-196): resolves the key and reports the
authentication status (`"authenticated" if api_key else "not authenticated"`,
Python truthiness) among the fixed informational fields. -/
def get_api_info (env : ResolverEnv) : Except Unit (List (String × String)) :=
  (get_session_api_key env).bind (fun apiKey =>
    let authStatus :=
      match apiKey with
      | none => "not authenticated"
      | some k => if k = "" then "not authenticated" else "authenticated"
    .ok [("status", "ready"),
         ("auth_status", authStatus),
         ("api_name", "NASA Astronomy Picture of the Day"),
         ("api_url", "https://api.nasa.gov/planetary/apod"),
         ("documentation", "https://api.nasa.gov/"),
         ("description", "Nasa apod api integration for astronomy data"),
         ("authentication", "Bearer token required in Authorization header")])

/-- A fresh middleware environment for an inbound HTTP call with headers
`hs`: the request is obtainable, the context has a `state` attribute, and no
`api_key` is bound anywhere yet. -/
def mwEnvOf (hs : List (String × String)) : MwEnv :=
  { httpRequest := .ok { headers := hs, state := { apiKey := none } },
    contextHasState := true,
    contextApiKey := none }

/-- The resolver environment a tool sees after the middleware ran on a fresh
inbound HTTP call with headers `hs`: the tool's context and the ambient
context are the same object the middleware wrote to, and the ambient request
is the same request. -/
def envAfter (hs : List (String × String)) : ResolverEnv :=
  let out := on_request (mwEnvOf hs)
  { contextHasState := true,
    contextApiKey := out.contextApiKey,
    httpRequest := .ok { headers := hs, state := { apiKey := out.requestApiKey } },
    ambientContext := .ok { hasState := true, apiKey := out.contextApiKey } }

/-- Shared helper: after the middleware runs on a fresh inbound HTTP call,
the resolver yields the extracted token when it is non-empty, and absence
otherwise. -/
theorem resolve_after_middleware (hs : List (String × String)) :
    get_session_api_key (envAfter hs) =
      .ok (if finalToken hs = "" then none else some (finalToken hs)) := by
  by_cases h : finalToken hs = "" <;>
    simp [envAfter, mwEnvOf, on_request, onRequestTry, pyCatch, Except.map,
      get_session_api_key, resolverStep1, resolverStep2, resolverStep3, h]

/-- A context whose state holds the `api_key` attribute with the empty value,
while the ambient request's store holds the non-empty value `"real"`. -/
def c1CexEnv : ResolverEnv :=
  { contextHasState := true, contextApiKey := some "",
    httpRequest := .ok { headers := [], state := { apiKey := some "real" } },
    ambientContext := .error () }

/-- Claim C1 counterexample: with the empty string stored under `api_key` in
the context state and `"real"` stored in the request state, the resolver
returns the empty stored value instead of proceeding to the next fallback
step, contradicting the claim that the stored value is returned only when
non-empty. -/
theorem c1_counterexample :
    get_session_api_key c1CexEnv = .ok (some "") ∧
    get_session_api_key c1CexEnv ≠ .ok (some "real") := by decide

/-- Claim C1 (amended): step 1 of `get_session_api_key` returns the value
stored under `api_key` whenever the attribute is present on the context
state, regardless of emptiness; only when step 1 finds no attribute does
the resolver proceed to the later fallback steps. -/
theorem c1_step_one_presence_only (env : ResolverEnv) :
    (∀ v, env.contextHasState = true → env.contextApiKey = some v →
      get_session_api_key env = .ok (some v)) ∧
    (resolverStep1 env = none →
      get_session_api_key env =
        .ok (match resolverStep2 env with
             | some v => some v
             | none => resolverStep3 env)) := by
  constructor
  · intro v h1 h2
    simp [get_session_api_key, resolverStep1, h1, h2, pyCatch]
  · intro h
    cases h2 : resolverStep2 env <;> cases h3 : resolverStep3 env <;>
      simp [get_session_api_key, pyCatch, h, h2, h3]

/-- Claim C1 witness: an empty stored value is returned as-is, and with no
attribute on the context state the resolver falls through to the request
store. -/
theorem c1_amended_witness :
    get_session_api_key
      { contextHasState := true, contextApiKey := some "",
        httpRequest := .error (), ambientContext := .error () } =
      .ok (some "") ∧
    get_session_api_key
      { contextHasState := false, contextApiKey := some "x",
        httpRequest := .ok { headers := [], state := { apiKey := some "req" } },
        ambientContext := .error () } =
      .ok (some "req") :=
  ⟨(c1_step_one_presence_only _).1 "" rfl rfl,
   ((c1_step_one_presence_only
      { contextHasState := false, contextApiKey := some "x",
        httpRequest := .ok { headers := [], state := { apiKey := some "req" } },
        ambientContext := .error () }).2 (by decide)).trans (by decide)⟩

/-- Claim C2: for every inbound request whose Authorization header value
case-insensitively starts with the literal prefix "bearer ", the extracted
credential is everything after the 7-character prefix with surrounding
whitespace trimmed (here with a non-empty trimmed token, which the code
requires before it accepts the bearer path, cf. C10), and the resolver of a
fresh call then yields exactly that trimmed token. -/
theorem c2_bearer_trimmed (hs : List (String × String)) (auth : String)
    (hget : headerGet hs "Authorization" = some auth)
    (hpre : pyStartsWith (pyLower auth) "bearer " = true)
    (hne : pyStrip (pyDrop auth 7) ≠ "") :
    finalToken hs = pyStrip (pyDrop auth 7) ∧
    get_session_api_key (envAfter hs) = .ok (some (pyStrip (pyDrop auth 7))) := by
  have hb : bearerToken hs = some (pyStrip (pyDrop auth 7)) := by
    simp [bearerToken, headerGetD, hget, hpre]
  have hf : finalToken hs = pyStrip (pyDrop auth 7) := by
    simp [finalToken, hb, hne]
  exact ⟨hf, by rw [resolve_after_middleware, hf, if_neg hne]⟩

/-- Claim C2 witness: the header `Authorization: Bearer  X   ` (extra spaces
around the token) resolves to the credential `X` exactly. -/
theorem c2_witness :
    finalToken [("Authorization", "Bearer  X   ")] = "X" ∧
    get_session_api_key (envAfter [("Authorization", "Bearer  X   ")]) =
      .ok (some "X") := by
  have h := c2_bearer_trimmed [("Authorization", "Bearer  X   ")]
    "Bearer  X   " (by decide) (by decide) (by decide)
  exact ⟨h.1.trans (by decide), h.2.trans (by decide)⟩

/-- Claim C3: for every inbound request with no matching bearer
Authorization header but a non-empty X-API-KEY header with value `y`, the
credential is `y` verbatim, untouched whitespace included, and the resolver
of a fresh call yields exactly `y`. -/
theorem c3_x_api_key_verbatim (hs : List (String × String)) (y : String)
    (hbearer : bearerToken hs = none)
    (hkey : headerGet hs "X-API-KEY" = some y) (hy : y ≠ "") :
    finalToken hs = y ∧
    get_session_api_key (envAfter hs) = .ok (some y) := by
  have hf : finalToken hs = y := by
    simp [finalToken, hbearer, headerGetD, hkey]
  exact ⟨hf, by rw [resolve_after_middleware, hf, if_neg hy]⟩

/-- Claim C3 witness: with no Authorization header and `X-API-KEY:  Y `
(whitespace inside the value), the credential is the value ` Y ` exactly. -/
theorem c3_witness :
    finalToken [("X-API-KEY", " Y ")] = " Y " ∧
    get_session_api_key (envAfter [("X-API-KEY", " Y ")]) = .ok (some " Y ") :=
  c3_x_api_key_verbatim [("X-API-KEY", " Y ")] " Y "
    (by decide) (by decide) (by decide)

/-- The configuration in which no `api_key` is bound anywhere the resolver
looks: the context state has no such attribute, any obtainable request
state has none, and any ambient context has none. -/
def noCredentialBound (env : ResolverEnv) : Prop :=
  (env.contextHasState = false ∨ env.contextApiKey = none) ∧
  (∀ req, env.httpRequest = .ok req → req.state.apiKey = none) ∧
  (∀ ctx, env.ambientContext = .ok ctx →
    ctx.hasState = false ∨ ctx.apiKey = none)

/-- Claim C4: the resolver never lets an exception escape (its result is
always `.ok`), it returns the absence sentinel when no credential is bound
anywhere, and a failing accessor in one fallback step does not prevent the
next step (here, a raising `get_http_request` does not stop the ambient
context step from producing the credential). -/
theorem c4_absence_never_raises (env : ResolverEnv) :
    (get_session_api_key env).isOk = true ∧
    (noCredentialBound env → get_session_api_key env = .ok none) ∧
    (∀ ctx v, env.httpRequest = .error () →
      (env.contextHasState = false ∨ env.contextApiKey = none) →
      env.ambientContext = .ok ctx → ctx.hasState = true →
      ctx.apiKey = some v →
      get_session_api_key env = .ok (some v)) := by
  refine ⟨?_, ?_, ?_⟩
  · cases h1 : resolverStep1 env <;> cases h2 : resolverStep2 env <;>
      cases h3 : resolverStep3 env <;>
      simp [get_session_api_key, pyCatch, Except.isOk, Except.toBool, h1, h2, h3]
  · rintro ⟨hc, hreq, hctx⟩
    have h1 : resolverStep1 env = none := by
      rcases hc with h | h <;> simp [resolverStep1, h]
    have h2 : resolverStep2 env = none := by
      cases hr : env.httpRequest with
      | ok req => simp [resolverStep2, pyCatch, hr, Except.map, hreq req hr]
      | error e => simp [resolverStep2, pyCatch, hr, Except.map]
    have h3 : resolverStep3 env = none := by
      cases ha : env.ambientContext with
      | ok ctx =>
        rcases hctx ctx ha with h | h <;>
          simp [resolverStep3, pyCatch, ha, Except.map, h]
      | error e => simp [resolverStep3, pyCatch, ha, Except.map]
    simp [get_session_api_key, pyCatch, h1, h2, h3]
  · intro ctx v herr hc ha hst hkey
    have h1 : resolverStep1 env = none := by
      rcases hc with h | h <;> simp [resolverStep1, h]
    have h2 : resolverStep2 env = none := by
      simp [resolverStep2, pyCatch, herr, Except.map]
    have h3 : resolverStep3 env = some v := by
      simp [resolverStep3, pyCatch, ha, Except.map, hst, hkey]
    simp [get_session_api_key, pyCatch, h1, h2, h3]

/-- Claim C4 witness: with nothing bound and every accessor raising, the
resolver returns the absence sentinel; with the request accessor raising but
the ambient context holding `amb`, the resolver still finds `amb`. -/
theorem c4_witness :
    get_session_api_key
      { contextHasState := false, contextApiKey := none,
        httpRequest := .error (), ambientContext := .error () } = .ok none ∧
    get_session_api_key
      { contextHasState := true, contextApiKey := none,
        httpRequest := .error (),
        ambientContext := .ok { hasState := true, apiKey := some "amb" } } =
      .ok (some "amb") :=
  ⟨(c4_absence_never_raises _).2.1
     ⟨Or.inl rfl, fun _ h => Except.noConfusion h,
      fun _ h => Except.noConfusion h⟩,
   (c4_absence_never_raises _).2.2 { hasState := true, apiKey := some "amb" }
     "amb" rfl (Or.inr rfl) rfl rfl rfl⟩

/-- Claim C5: whenever the resolver reports absence, `example_tool` returns
(rather than raises) the dictionary whose only field is `error`, whose value
is the fixed message; that message ends in the literal instruction
`Authorization: Bearer YOUR_API_KEY`, and none of the placeholder success
fields are produced. -/
theorem c5_example_tool_error_shape (env : ResolverEnv) (query now : String)
    (h : get_session_api_key env = .ok none) :
    example_tool env query now = .ok [("error", missingKeyMsg)] ∧
    missingKeyMsg = "No API key found. Please authenticate with " ++
      "Authorization: Bearer YOUR_API_KEY" := by
  refine ⟨?_, by decide⟩
  simp [example_tool, h, Except.bind]

/-- Claim C5 witness: a call that carried no auth headers makes
`example_tool` return the error-shaped dictionary. -/
theorem c5_witness :
    example_tool (envAfter []) "q" "t" = .ok [("error", missingKeyMsg)] ∧
    missingKeyMsg = "No API key found. Please authenticate with " ++
      "Authorization: Bearer YOUR_API_KEY" :=
  c5_example_tool_error_shape (envAfter []) "q" "t" (by decide)

/-- Claim C6: the interceptor always proceeds with the call (its `call_next`
runs in every case), and when the transport request accessor raises, the
failure is swallowed and the context store is left untouched. -/
theorem c6_interceptor_never_blocks (env : MwEnv) :
    (on_request env).proceeded = true ∧
    (env.httpRequest = .error () →
      (on_request env).contextApiKey = env.contextApiKey) := by
  constructor
  · cases h : onRequestTry env with
    | ok p =>
      obtain ⟨c, r⟩ := p
      simp [on_request, pyCatch, h]
    | error e => simp [on_request, pyCatch, h]
  · intro herr
    have h : onRequestTry env = .error () := by simp [onRequestTry, herr]
    simp [on_request, pyCatch, h]

/-- Claim C6 witness: with a raising request accessor and a pre-existing
stored value, the call proceeds and the store is untouched. -/
theorem c6_witness :
    (on_request
      { httpRequest := .error (), contextHasState := true,
        contextApiKey := some "pre" }).proceeded = true ∧
    (on_request
      { httpRequest := .error (), contextHasState := true,
        contextApiKey := some "pre" }).contextApiKey = some "pre" :=
  ⟨(c6_interceptor_never_blocks _).1, (c6_interceptor_never_blocks _).2 rfl⟩

/-- The inbound request of the C7 counterexample, carrying a valid bearer
token. -/
def c7CexReq : HttpRequest :=
  { headers := [("Authorization", "Bearer tok")], state := { apiKey := none } }

/-- A call whose middleware context lacks the `state` attribute, carrying a
valid bearer token. -/
def c7CexEnv : MwEnv :=
  { httpRequest := .ok c7CexReq, contextHasState := false,
    contextApiKey := none }

/-- Claim C7 counterexample: on a call carrying `Authorization: Bearer tok`
whose middleware context lacks the `state` attribute, the non-empty
credential `tok` is extracted yet no write to the Call Context's store
occurs — the write goes to the request's store instead — refuting the
claimed equivalence between extraction and a context-store write. -/
theorem c7_counterexample :
    finalToken [("Authorization", "Bearer tok")] = "tok" ∧
    (on_request c7CexEnv).contextApiKey ≠ some "tok" ∧
    (on_request c7CexEnv).requestApiKey = some "tok" := by decide

/-- Claim C7 (amended): on a call with an obtainable request, the
interceptor writes the extracted credential into the Call Context's store
iff the credential is non-empty and the context exposes a `state`
attribute; a non-empty credential with no `state` attribute is written to
the request's store instead; and when no non-empty credential is found,
neither store is written. -/
theorem c7_store_writes (env : MwEnv) (req : HttpRequest)
    (h : env.httpRequest = .ok req) :
    (finalToken req.headers ≠ "" → env.contextHasState = true →
      (on_request env).contextApiKey = some (finalToken req.headers) ∧
      (on_request env).requestApiKey = req.state.apiKey) ∧
    (finalToken req.headers ≠ "" → env.contextHasState = false →
      (on_request env).contextApiKey = env.contextApiKey ∧
      (on_request env).requestApiKey = some (finalToken req.headers)) ∧
    (finalToken req.headers = "" →
      (on_request env).contextApiKey = env.contextApiKey ∧
      (on_request env).requestApiKey = req.state.apiKey) := by
  refine ⟨fun ht hc => ?_, fun ht hc => ?_, fun ht => ?_⟩
  · have he : onRequestTry env =
        .ok (some (finalToken req.headers), req.state.apiKey) := by
      simp [onRequestTry, h, ht, hc]
    simp [on_request, pyCatch, he]
  · have he : onRequestTry env =
        .ok (env.contextApiKey, some (finalToken req.headers)) := by
      simp [onRequestTry, h, ht, hc]
    simp [on_request, pyCatch, he]
  · have he : onRequestTry env = .ok (env.contextApiKey, req.state.apiKey) := by
      simp [onRequestTry, h, ht]
    simp [on_request, pyCatch, he]

/-- A request with a bearer token, for the C7 witness. -/
def c7wReqA : HttpRequest :=
  { headers := [("Authorization", "Bearer abc")], state := { apiKey := none } }

/-- A request with no credential-bearing headers, for the C7 witness. -/
def c7wReqB : HttpRequest :=
  { headers := [], state := { apiKey := none } }

/-- A middleware context exposing `state`, receiving `c7wReqA`. -/
def c7wEnvA : MwEnv :=
  { httpRequest := .ok c7wReqA, contextHasState := true, contextApiKey := none }

/-- A middleware context exposing `state`, receiving `c7wReqB`. -/
def c7wEnvB : MwEnv :=
  { httpRequest := .ok c7wReqB, contextHasState := true, contextApiKey := none }

/-- Claim C7 witness: with a bearer token and a context exposing `state`,
the credential lands in the context store; with no credential-bearing
headers, the context store is untouched. -/
theorem c7_amended_witness :
    (on_request c7wEnvA).contextApiKey = some "abc" ∧
    (on_request c7wEnvB).contextApiKey = none := by
  constructor
  · exact (((c7_store_writes c7wEnvA c7wReqA rfl).1
      (by decide) rfl).1).trans (by decide)
  · exact ((c7_store_writes c7wEnvB c7wReqB rfl).2.2 (by decide)).1

/-- Two consecutive invocations of the resolver in the same Call Context,
with no interceptor run in between: the code of `get_session_api_key`
performs no writes to any store, so the second invocation observes exactly
the state the first one did. -/
def resolverTwice (env : ResolverEnv) :
    Except Unit (Option String) × Except Unit (Option String) :=
  (get_session_api_key env, get_session_api_key env)

/-- Claim C8: invoking the resolver twice in the same Call Context without
re-running the interceptor returns the same result both times; this is
definitional because the resolver only reads its environment. -/
theorem c8_resolver_idempotent (env : ResolverEnv) :
    (resolverTwice env).1 = (resolverTwice env).2 := rfl

/-- Shared helper: the `auth_status` field of `get_api_info` is computed
from the resolved key by Python truthiness, and the tool returns normally. -/
theorem get_api_info_fields (env : ResolverEnv) (k : Option String)
    (h : get_session_api_key env = .ok k) :
    (get_api_info env).toOption.bind (List.lookup "auth_status") =
      some (match k with
            | none => "not authenticated"
            | some s => if s = "" then "not authenticated"
                        else "authenticated") ∧
    (get_api_info env).isOk = true := by
  cases k with
  | none =>
    simp [get_api_info, h, Except.bind, Except.toOption, Except.isOk,
      Except.toBool, List.lookup]
  | some s =>
    by_cases hs0 : s = "" <;>
      simp [get_api_info, h, Except.bind, Except.toOption, Except.isOk,
        Except.toBool, List.lookup, hs0]

/-- Claim C9: for every inbound call, `get_api_info` returns normally, and
its `auth_status` field is `"authenticated"` exactly when the resolver
returns a credential for the call's context; concretely, a call with
`Authorization: Bearer abc123` reports `"authenticated"` and a call with no
auth headers reports `"not authenticated"`. -/
theorem c9_auth_status (hs : List (String × String)) :
    (get_api_info (envAfter hs)).isOk = true ∧
    ((get_api_info (envAfter hs)).toOption.bind (List.lookup "auth_status") =
        some "authenticated" ↔
      ∃ k, get_session_api_key (envAfter hs) = .ok (some k)) ∧
    (get_api_info (envAfter [("Authorization", "Bearer abc123")])).toOption.bind
      (List.lookup "auth_status") = some "authenticated" ∧
    (get_api_info (envAfter [])).toOption.bind (List.lookup "auth_status") =
      some "not authenticated" := by
  have hr := resolve_after_middleware hs
  by_cases h : finalToken hs = ""
  · rw [if_pos h] at hr
    have hf := get_api_info_fields (envAfter hs) none hr
    refine ⟨hf.2, ?_, by decide, by decide⟩
    constructor
    · intro hl
      rw [hf.1] at hl
      simp at hl
    · rintro ⟨k, hk⟩
      rw [hr] at hk
      simp at hk
  · rw [if_neg h] at hr
    have hf := get_api_info_fields (envAfter hs) (some (finalToken hs)) hr
    refine ⟨hf.2, ?_, by decide, by decide⟩
    constructor
    · intro _
      exact ⟨finalToken hs, hr⟩
    · intro _
      rw [hf.1]
      simp [h]

/-- Claim C10: an Authorization value that matches the bearer prefix but
whose remainder trims to the empty string is treated exactly like a
non-matching header: the token falls back to the X-API-KEY lookup, and when
that header is absent too, a fresh call stores nothing anywhere — a
whitespace-only bearer token is never stored. -/
theorem c10_whitespace_bearer_falls_back (hs : List (String × String))
    (auth : String)
    (hget : headerGet hs "Authorization" = some auth)
    (hpre : pyStartsWith (pyLower auth) "bearer " = true)
    (hemp : pyStrip (pyDrop auth 7) = "") :
    finalToken hs = headerGetD hs "X-API-KEY" "" ∧
    (headerGet hs "X-API-KEY" = none →
      (on_request (mwEnvOf hs)).contextApiKey = none ∧
      (on_request (mwEnvOf hs)).requestApiKey = none) := by
  have hb : bearerToken hs = some (pyStrip (pyDrop auth 7)) := by
    simp [bearerToken, headerGetD, hget, hpre]
  have hf : finalToken hs = headerGetD hs "X-API-KEY" "" := by
    simp [finalToken, hb, hemp]
  refine ⟨hf, fun hnone => ?_⟩
  have hf0 : finalToken hs = "" := by simp [hf, headerGetD, hnone]
  have he : onRequestTry (mwEnvOf hs) = .ok (none, none) := by
    simp [onRequestTry, mwEnvOf, hf0]
  simp [on_request, pyCatch, he]

/-- Claim C10 witness: `Authorization: Bearer   ` (whitespace-only token)
with `X-API-KEY: zzz` resolves the token `zzz`; the same bearer value with
no X-API-KEY header leaves both stores empty. -/
theorem c10_witness :
    finalToken [("Authorization", "Bearer   "), ("X-API-KEY", "zzz")] =
      "zzz" ∧
    (on_request (mwEnvOf [("Authorization", "Bearer   ")])).contextApiKey =
      none := by
  constructor
  · exact (c10_whitespace_bearer_falls_back
      [("Authorization", "Bearer   "), ("X-API-KEY", "zzz")] "Bearer   "
      (by decide) (by decide) (by decide)).1.trans (by decide)
  · exact ((c10_whitespace_bearer_falls_back [("Authorization", "Bearer   ")]
      "Bearer   " (by decide) (by decide) (by decide)).2 (by decide)).1
